import Mathlib

/-!
Shallow embedding of `src/sensor-simulation/simulation.py`, a synthetic
IoT sensor-data generator: a random reading generator (`get_data`), a
fixed-interval dispatch loop over a three-site registry (`main`), a live
publish mode and a dry-run (test) mode.  Machine-level collaborators
(the Python `random` module, the UTC wall clock, the Azure IoT client
SDK) are modelled as explicit inputs; the observable behaviour of a run
is a list of events (prints, publishes, sleeps, disconnects) plus an
exit status.
-/

namespace Simulation

/-! ## Rounding and the random source

`random.uniform a b` returns `a + (b - a) * random()` where `random()`
is drawn from `[0, 1)`.  Python `round(x, 1)` rounds `x` to one decimal
place with ties going to the nearest even tenth (banker rounding); we
work in exact rational arithmetic. -/

/-- Round a rational to the nearest integer, ties to even: the exact
arithmetic behind Python `round(_, 0)` at integer scale. -/
def roundHalfEven (q : ℚ) : ℤ :=
  if q - ⌊q⌋ < 1/2 then ⌊q⌋
  else if 1/2 < q - ⌊q⌋ then ⌊q⌋ + 1
  else if Even ⌊q⌋ then ⌊q⌋ else ⌊q⌋ + 1

/-- Python `round(x, 1)`: round to the nearest tenth, ties to even. -/
def pyRound1 (q : ℚ) : ℚ := (roundHalfEven (10 * q) : ℚ) / 10

/-- Python `random.uniform a b = a + (b - a) * random()`. -/
def uniform (a b u : ℚ) : ℚ := a + (b - a) * u

/-! ## Wall-clock datetimes and ISO-8601 formatting

`datetime.now(timezone.utc)` yields a civil UTC datetime
(year-month-day hour:minute:second); `strftime("%Y-%m-%dT%H:%M:%SZ")`
renders it with zero-padded two-digit fields, the decimal year and a
literal `Z`. -/

/-- A civil UTC datetime at second precision, as produced by
`datetime.now(timezone.utc)` (sub-second part ignored by the format). -/
structure DateTime where
  year : ℕ
  month : ℕ
  day : ℕ
  hour : ℕ
  minute : ℕ
  second : ℕ
deriving DecidableEq, Repr

/-- Field ranges enforced by the Python `datetime` type (its year range
is 1..9999; day is additionally bounded by the month length, which the
formatting below does not depend on). -/
def PyValidDT (t : DateTime) : Prop :=
  1 ≤ t.year ∧ t.year ≤ 9999 ∧ 1 ≤ t.month ∧ t.month ≤ 12 ∧
    1 ≤ t.day ∧ t.day ≤ 31 ∧ t.hour ≤ 23 ∧ t.minute ≤ 59 ∧ t.second ≤ 59

instance (t : DateTime) : Decidable (PyValidDT t) := by
  unfold PyValidDT; infer_instance

/-- The decimal digit character for `n % 10`. -/
def digitChar (n : ℕ) : Char := Char.ofNat (48 + n % 10)

/-- Modelled from the spec: the character list written by Python
`strftime("%Y-%m-%dT%H:%M:%SZ")` (an external stdlib collaborator,
spec section 3: UTC, ISO-8601, second precision, `Z` suffix).  `%m`,
`%d`, `%H`, `%M`, `%S` are zero-padded to two digits; `%Y` is the
decimal year, which for the four-digit years of any UTC wall clock in a
real run is exactly its four digits. -/
def isoChars (t : DateTime) : List Char :=
  [digitChar (t.year / 1000), digitChar (t.year / 100),
   digitChar (t.year / 10), digitChar t.year, '-',
   digitChar (t.month / 10), digitChar t.month, '-',
   digitChar (t.day / 10), digitChar t.day, 'T',
   digitChar (t.hour / 10), digitChar t.hour, ':',
   digitChar (t.minute / 10), digitChar t.minute, ':',
   digitChar (t.second / 10), digitChar t.second, 'Z']

/-- The timestamp string of line 29 of `simulation.py`:
`datetime.now(timezone.utc).strftime("%Y-%m-%dT%H:%M:%SZ")` applied to
the clock value `t`. -/
def strftimeISO (t : DateTime) : String := ⟨isoChars t⟩

/-- The numeric value of a decimal digit character, `none` for
anything else. -/
def digitVal (c : Char) : Option ℕ :=
  if 48 ≤ c.toNat ∧ c.toNat ≤ 57 then some (c.toNat - 48) else none

/-- Parser for the timestamp format: accepts exactly the twenty-character
shape `YYYY-MM-DDTHH:MM:SSZ` and recovers the datetime fields. -/
def parseISOChars : List Char → Option DateTime
  | [y1, y2, y3, y4, c1, mo1, mo2, c2, d1, d2, c3,
     h1, h2, c4, mi1, mi2, c5, s1, s2, c6] =>
    if c1 = '-' ∧ c2 = '-' ∧ c3 = 'T' ∧ c4 = ':' ∧ c5 = ':' ∧ c6 = 'Z' then do
      let a ← digitVal y1
      let b ← digitVal y2
      let c ← digitVal y3
      let d ← digitVal y4
      let mh ← digitVal mo1
      let ml ← digitVal mo2
      let dh ← digitVal d1
      let dl ← digitVal d2
      let hh ← digitVal h1
      let hl ← digitVal h2
      let nh ← digitVal mi1
      let nl ← digitVal mi2
      let sh ← digitVal s1
      let sl ← digitVal s2
      pure ⟨1000 * a + 100 * b + 10 * c + d, 10 * mh + ml, 10 * dh + dl,
            10 * hh + hl, 10 * nh + nl, 10 * sh + sl⟩
    else none
  | _ => none

/-- Parse a timestamp string back to a datetime. -/
def parseISO (s : String) : Option DateTime := parseISOChars s.toList

/-- Chronological key of a civil datetime: strictly monotone in the
lexicographic field order, so two clock readings compare by `dtKey`. -/
def dtKey (t : DateTime) : ℕ :=
  ((((t.year * 13 + t.month) * 32 + t.day) * 24 + t.hour) * 60 + t.minute) * 60
    + t.second

/-! ## The reading generator -/

/-- The dictionary returned by `get_data` (lines 22-30): four rounded
random fields and a timestamp; `location` is not set by the generator. -/
structure Reading where
  surfaceTemperature : ℚ
  externalTemperature : ℚ
  iceThickness : ℚ
  snowAccumulation : ℚ
  timestamp : String
deriving DecidableEq, Repr

/-- A reading after the caller has attached `data["location"]`
(line 35 and line 47). -/
structure LocReading extends Reading where
  location : String
deriving DecidableEq, Repr

/-- `data["location"] = location`. -/
def attachLocation (r : Reading) (loc : String) : LocReading :=
  { r with location := loc }

/-- The ambient machine collaborators of one process run: the stream of
outputs of the underlying `random()` (each in `[0, 1)`) and the stream
of successive `datetime.now(timezone.utc)` readings.  The i-th call to
`get_data` in a run consumes `rand (4*i) .. rand (4*i+3)` and
`clock i`. -/
structure World where
  rand : ℕ → ℚ
  clock : ℕ → DateTime

/-- The `rand` stream takes the values of Python `random()`: rationals
in `[0, 1)`. -/
def RandOK (w : World) : Prop := ∀ j, 0 ≤ w.rand j ∧ w.rand j < 1

/-- `get_data` (lines 22-30) at its i-th call of the run. -/
def get_data (w : World) (i : ℕ) : Reading :=
  { surfaceTemperature := pyRound1 (uniform (-20) 0 (w.rand (4 * i))),
    externalTemperature := pyRound1 (uniform (-25) 0 (w.rand (4 * i + 1))),
    iceThickness := pyRound1 (uniform 10 50 (w.rand (4 * i + 2))),
    snowAccumulation := pyRound1 (uniform 0 15 (w.rand (4 * i + 3))),
    timestamp := strftimeISO (w.clock i) }

/-! ## Configuration and the site registry -/

/-- The process environment variables read at module load
(lines 11-13 and 17-19): `os.getenv` yields `none` when the variable is
absent. -/
structure EnvVars where
  CONNECTION_STRING1 : Option String
  CONNECTION_STRING2 : Option String
  CONNECTION_STRING3 : Option String
deriving DecidableEq, Repr

/-- The module-level dictionary `location_connection_strings`
(lines 16-20), in insertion order. -/
def location_connection_strings (e : EnvVars) : List (String × Option String) :=
  [("Dow\x27s Lake", e.CONNECTION_STRING1),
   ("NAC", e.CONNECTION_STRING2),
   ("Fifth Avenue", e.CONNECTION_STRING3)]

/-- The registry keys, in dictionary iteration order. -/
def registryKeys (e : EnvVars) : List String :=
  (location_connection_strings e).map Prod.fst

/-- An Azure IoT Hub device client handle, opaque apart from the
connection string it was created from. -/
structure IoTClient where
  connStr : String
deriving DecidableEq, Repr

/-- Modelled from the spec: `IoTHubDeviceClient.create_from_connection_string`
of the external SDK (spec section 6: an opaque client constructed once
at startup from the site credential; an absent or malformed credential
is a configuration error, section 7).  The SDK raises when handed
`None` or an empty string; the raised exception is the `.error` case. -/
def create_from_connection_string : Option String → Except String IoTClient
  | none => .error "connection string must not be None"
  | some s => if s = "" then .error "connection string is empty" else .ok ⟨s⟩

/-- The dictionary comprehension of lines 54-55, evaluated in registry
order; the first raising construction aborts it with that exception. -/
def createClients : List (String × Option String) →
    Except String (List (String × IoTClient))
  | [] => .ok []
  | (loc, cred) :: rest =>
    match create_from_connection_string cred with
    | .error msg => .error msg
    | .ok c =>
      match createClients rest with
      | .error msg => .error msg
      | .ok cs => .ok ((loc, c) :: cs)

/-! ## Observable events of a run -/

/-- One observable step of a process run.  `printLine` is a lifecycle
`print`; `printReading` is `print(data)` of test mode (line 48);
`printSent` is the `Sent message from ...` line (line 38); `publish` is
the call `client.send_message(message)` for the named site (line 37,
recorded whether or not the SDK raises on it); `clientCreated` records
one client construction of lines 54-55; `sleepSecs` is `time.sleep`;
`disconnect` is `client.disconnect()` for the named site (line 67);
`reportError` is the interpreter printing an unhandled exception
traceback to the console as the process dies. -/
inductive Event where
  | printLine : String → Event
  | printReading : LocReading → Event
  | printSent : String → LocReading → Event
  | publish : String → LocReading → Event
  | clientCreated : String → Event
  | sleepSecs : ℕ → Event
  | disconnect : String → Event
  | reportError : String → Event
deriving DecidableEq, Repr

/-! ## The dispatch loop

The `while True` loops of `main` run until `KeyboardInterrupt`; a run
is modelled by the number `cycles` of full passes completed before the
interrupt arrives (the interrupt lands in the `time.sleep` / loop head
after them).  In live mode the SDK call `client.send_message` may
raise; the oracle `fails i loc` says whether the call for site `loc`
at reading index `i` raises.  Only `KeyboardInterrupt` is caught, so a
raising send aborts the loop body. -/

/-- One pass of the test-mode `for` loop (lines 45-48): print one
located reading per registry key, consuming one reading index each. -/
def testPass (w : World) : List String → ℕ → List Event
  | [], _ => []
  | loc :: rest, i =>
    .printReading (attachLocation (get_data w i) loc) :: testPass w rest (i + 1)

/-- The test-mode `while True` loop (lines 44-49), `cycles` full passes
starting at reading index `i`, each followed by `time.sleep(10)`. -/
def testLoop (w : World) (locs : List String) : ℕ → ℕ → List Event
  | 0, _ => []
  | c + 1, i =>
    testPass w locs i ++ Event.sleepSecs 10 :: testLoop w locs c (i + locs.length)

/-- Test-mode `main` (lines 41-51): banner, the loop until the
interrupt, then the `except KeyboardInterrupt` notice.  Test mode never
touches the credentials or the SDK. -/
def mainTestTrace (w : World) (e : EnvVars) (cycles : ℕ) : List Event :=
  .printLine "Test mode enabled. Printing simulated data every 10 seconds..." ::
    (testLoop w (registryKeys e) cycles 0 ++ [.printLine "Test mode stopped."])

/-- `send_data` (lines 32-38) for site `loc` at reading index `i`: get
a reading, attach the location, call `client.send_message` (the
`publish` event records the call, raising or not); the `Sent message`
print happens only when the send returned.  The boolean reports a
raise. -/
def send_data (w : World) (fails : ℕ → String → Bool) (i : ℕ) (loc : String) :
    List Event × Bool :=
  let data := attachLocation (get_data w i) loc
  if fails i loc then ([.publish loc data], true)
  else ([.publish loc data, .printSent loc data], false)

/-- The live-mode `for` pass over `clients.items()` (lines 60-61): a
raising `send_data` aborts the pass (nothing catches it there). -/
def livePass (w : World) (fails : ℕ → String → Bool) :
    List (String × IoTClient) → ℕ → List Event × Bool
  | [], _ => ([], false)
  | (loc, _) :: rest, i =>
    let r := send_data w fails i loc
    if r.2 then (r.1, true)
    else
      let r2 := livePass w fails rest (i + 1)
      (r.1 ++ r2.1, r2.2)

/-- The live-mode `while True` loop (lines 59-62): `cycles` passes each
followed by `time.sleep(10)`, aborted early by a raising send. -/
def liveLoop (w : World) (fails : ℕ → String → Bool)
    (clients : List (String × IoTClient)) : ℕ → ℕ → List Event × Bool
  | 0, _ => ([], false)
  | c + 1, i =>
    let r := livePass w fails clients i
    if r.2 then (r.1, true)
    else
      let r2 := liveLoop w fails clients c (i + clients.length)
      (r.1 ++ Event.sleepSecs 10 :: r2.1, r2.2)

/-- Live-mode `main` (lines 52-67).  Client construction failure is an
unhandled exception before the loop: traceback, exit 1, no loop events.
A raising send skips the rest of its cycle, runs the `finally`
disconnects and dies with exit 1 (no `Stopped` notice: only
`KeyboardInterrupt` is caught).  On interrupt after `cycles` passes the
`except` clause prints the notice, the `finally` disconnects every
client, and the process exits 0. -/
def mainLive (w : World) (fails : ℕ → String → Bool) (e : EnvVars)
    (cycles : ℕ) : List Event × ℕ :=
  match createClients (location_connection_strings e) with
  | .error msg => ([.reportError msg], 1)
  | .ok clients =>
    let head := clients.map (fun p => Event.clientCreated p.1) ++
      [.printLine "Sending data to IoT Hub..."]
    let r := liveLoop w fails clients cycles 0
    if r.2 then
      (head ++ r.1 ++ clients.map (fun p => Event.disconnect p.1) ++
        [.reportError "unhandled exception raised by send_message"], 1)
    else
      (head ++ r.1 ++ .printLine "Stopped sending messages." ::
        clients.map (fun p => Event.disconnect p.1), 0)

/-- `main(test_mode)` (line 40): the test branch always exits 0 after
its interrupt. -/
def main (w : World) (fails : ℕ → String → Bool) (e : EnvVars)
    (test_mode : Bool) (cycles : ℕ) : List Event × ℕ :=
  if test_mode then (mainTestTrace w e cycles, 0) else mainLive w fails e cycles

/-! ## Trace observables -/

/-- The site a single event mentions, if any. -/
def eventLoc : Event → Option String
  | .printReading r => some r.location
  | .printSent l _ => some l
  | .publish l _ => some l
  | .clientCreated l => some l
  | .disconnect l => some l
  | _ => none

/-- All site names a trace mentions. -/
def locsUsed (evs : List Event) : List String := evs.filterMap eventLoc

/-- Number of `client.send_message` calls in a trace. -/
def publishCount (evs : List Event) : ℕ :=
  evs.countP fun ev => match ev with | .publish _ _ => true | _ => false

/-- Number of `client.send_message` calls for one site. -/
def publishCountAt (loc : String) (evs : List Event) : ℕ :=
  evs.countP fun ev => match ev with
    | .publish l _ => l = loc | _ => false

/-- The sites of the `send_message` calls, in call order, paired with
the `location` field of the payload each one carried. -/
def publishedPairs (evs : List Event) : List (String × String) :=
  evs.filterMap fun ev => match ev with
    | .publish l r => some (l, r.location) | _ => none

/-- The locations of the readings printed by test mode, in order. -/
def printedLocs (evs : List Event) : List String :=
  evs.filterMap fun ev => match ev with
    | .printReading r => some r.location | _ => none

/-- Number of `time.sleep` suspensions in a trace. -/
def sleepCount (evs : List Event) : ℕ :=
  evs.countP fun ev => match ev with | .sleepSecs _ => true | _ => false

/-- Number of times a given line is printed. -/
def lineCount (s : String) (evs : List Event) : ℕ :=
  evs.countP fun ev => match ev with | .printLine l => l = s | _ => false

/-- Number of `disconnect` calls for one site. -/
def disconnectCountAt (loc : String) (evs : List Event) : ℕ :=
  evs.countP fun ev => match ev with
    | .disconnect l => l = loc | _ => false

/-- Number of IoT client constructions recorded in a trace. -/
def clientCreatedCount (evs : List Event) : ℕ :=
  evs.countP fun ev => match ev with
    | .clientCreated _ => true | _ => false

/-- Number of unhandled-exception tracebacks in a trace. -/
def reportErrorCount (evs : List Event) : ℕ :=
  evs.countP fun ev => match ev with
    | .reportError _ => true | _ => false

/-- Boolean check that every site a trace mentions is in `keys`. -/
def eventLocsIn (keys : List String) (evs : List Event) : Bool :=
  evs.all fun ev => match eventLoc ev with
    | some l => keys.contains l
    | none => true

/-! ## Concrete sample inputs for instantiations -/

/-- A concrete machine environment: the random stream is constantly 0,
the clock is frozen at 2025-01-31 23:59:07 UTC. -/
def sampleWorld : World := ⟨fun _ => 0, fun _ => ⟨2025, 1, 31, 23, 59, 7⟩⟩

/-- A concrete environment with all three credentials set. -/
def sampleEnv : EnvVars := ⟨some "HostName=a", some "HostName=b", some "HostName=c"⟩

/-- A concrete environment with every credential absent. -/
def sampleEnvMissing : EnvVars := ⟨none, none, none⟩

/-- The benign send oracle: no `send_message` call raises. -/
def noFail : ℕ → String → Bool := fun _ _ => false

/-- A send oracle under which every send for the site `NAC` raises. -/
def failNAC : ℕ → String → Bool := fun _ l => l == "NAC"

/-! ## Rounding lemmas -/

theorem floor_le_roundHalfEven (q : ℚ) : ⌊q⌋ ≤ roundHalfEven q := by
  unfold roundHalfEven
  split_ifs <;> omega

theorem roundHalfEven_le_ceil (q : ℚ) : roundHalfEven q ≤ ⌈q⌉ := by
  unfold roundHalfEven
  have hfc := Int.floor_le_ceil q
  split_ifs with h1 h2 h3
  · exact hfc
  · refine Int.lt_ceil.mpr ?_
    have := Int.floor_le q
    linarith
  · exact hfc
  · refine Int.lt_ceil.mpr ?_
    have := Int.floor_le q
    linarith

theorem roundHalfEven_intCast (k : ℤ) : roundHalfEven (k : ℚ) = k := by
  unfold roundHalfEven
  rw [Int.floor_intCast]
  norm_num

/-- `round(x, 1)` keeps a value inside any interval with integer
endpoints that contains it. -/
theorem pyRound1_bounds (a b : ℤ) (x : ℚ) (h1 : (a : ℚ) ≤ x) (h2 : x ≤ b) :
    (a : ℚ) ≤ pyRound1 x ∧ pyRound1 x ≤ b := by
  have hfl : (10 * a : ℤ) ≤ ⌊10 * x⌋ := Int.le_floor.mpr (by push_cast; linarith)
  have hcl : ⌈10 * x⌉ ≤ 10 * b := Int.ceil_le.mpr (by push_cast; linarith)
  have h3 := floor_le_roundHalfEven (10 * x)
  have h4 := roundHalfEven_le_ceil (10 * x)
  have hlo : (10 * a : ℤ) ≤ roundHalfEven (10 * x) := le_trans hfl h3
  have hhi : roundHalfEven (10 * x) ≤ 10 * b := le_trans h4 hcl
  have hlo' : ((10 * a : ℤ) : ℚ) ≤ (roundHalfEven (10 * x) : ℚ) := by
    exact_mod_cast hlo
  have hhi' : ((roundHalfEven (10 * x) : ℤ) : ℚ) ≤ ((10 * b : ℤ) : ℚ) := by
    exact_mod_cast hhi
  unfold pyRound1
  push_cast at hlo' hhi'
  constructor <;> [linarith; linarith]

/-- `round(x, 1)` of an exact tenth is that tenth. -/
theorem pyRound1_tenth_fixed (k : ℤ) : pyRound1 ((k : ℚ) / 10) = (k : ℚ) / 10 := by
  unfold pyRound1
  rw [mul_div_cancel₀ (k : ℚ) (by norm_num : (10 : ℚ) ≠ 0), roundHalfEven_intCast]

theorem roundHalfEven_sub_quarter (k : ℤ) :
    roundHalfEven ((k : ℚ) - 1 / 4) = k := by
  have hfl : ⌊(k : ℚ) - 1 / 4⌋ = k - 1 := by
    have h : ((k : ℚ) - 1 / 4) = (k - 1 : ℤ) + (3 / 4 : ℚ) := by push_cast; ring
    rw [h, Int.floor_int_add]
    norm_num
  unfold roundHalfEven
  rw [hfl]
  push_cast
  split_ifs with h1 h2 h3 <;> [linarith; ring; linarith; linarith]

/-- `uniform a b` stays inside `[a, b]` for `u` in the unit interval. -/
theorem uniform_mem (a b u : ℚ) (hab : a ≤ b) (h0 : 0 ≤ u) (h1 : u ≤ 1) :
    a ≤ uniform a b u ∧ uniform a b u ≤ b := by
  unfold uniform
  constructor <;> nlinarith

/-- A rounded uniform draw between integer endpoints stays between
them. -/
theorem pyRound1_uniform_bounds (a b : ℤ) (u : ℚ) (h0 : 0 ≤ u) (h1 : u ≤ 1)
    (hab : (a : ℚ) ≤ (b : ℚ)) :
    (a : ℚ) ≤ pyRound1 (uniform (a : ℚ) (b : ℚ) u) ∧
      pyRound1 (uniform (a : ℚ) (b : ℚ) u) ≤ (b : ℚ) := by
  obtain ⟨hl, hr⟩ := uniform_mem _ _ u hab h0 h1
  exact pyRound1_bounds a b _ hl hr

/-- Every exact tenth between integer endpoints is attained by
rounding some uniform draw with `u` in `[0, 1)`, the endpoint `b`
included. -/
theorem pyRound1_uniform_attains (a b : ℤ) (hab : a < b) (k : ℤ)
    (hk1 : (a : ℚ) ≤ (k : ℚ) / 10) (hk2 : (k : ℚ) / 10 ≤ (b : ℚ)) :
    ∃ u : ℚ, 0 ≤ u ∧ u < 1 ∧
      pyRound1 (uniform (a : ℚ) (b : ℚ) u) = (k : ℚ) / 10 := by
  have hba : (0 : ℚ) < (b : ℚ) - (a : ℚ) := by
    have : (a : ℚ) < (b : ℚ) := by exact_mod_cast hab
    linarith
  have hba1 : (a : ℚ) + 1 ≤ (b : ℚ) := by exact_mod_cast Int.add_one_le_iff.mpr hab
  by_cases hend : (k : ℚ) / 10 < (b : ℚ)
  · refine ⟨((k : ℚ) / 10 - a) / ((b : ℚ) - a), ?_, ?_, ?_⟩
    · exact div_nonneg (by linarith) hba.le
    · rw [div_lt_one hba]; linarith
    · have huni : uniform (a : ℚ) (b : ℚ) (((k : ℚ) / 10 - a) / ((b : ℚ) - a)) =
          (k : ℚ) / 10 := by
        unfold uniform
        field_simp
        ring
      rw [huni, pyRound1_tenth_fixed]
  · have heq : (k : ℚ) / 10 = (b : ℚ) := le_antisymm hk2 (not_lt.mp hend)
    refine ⟨((k : ℚ) / 10 - 1 / 40 - a) / ((b : ℚ) - a), ?_, ?_, ?_⟩
    · refine div_nonneg ?_ hba.le
      rw [heq]; linarith
    · rw [div_lt_one hba, heq]; linarith
    · have huni : uniform (a : ℚ) (b : ℚ)
          (((k : ℚ) / 10 - 1 / 40 - a) / ((b : ℚ) - a)) = (k : ℚ) / 10 - 1 / 40 := by
        unfold uniform
        field_simp
        ring
      rw [huni]
      unfold pyRound1
      have h10 : 10 * ((k : ℚ) / 10 - 1 / 40) = (k : ℚ) - 1 / 4 := by ring
      rw [h10, roundHalfEven_sub_quarter]

/-- C2: every numeric field of every generated reading lies within its
documented bound, for every value of the random source. -/
theorem c2_fields_within_bounds (w : World) (i : ℕ) (hw : RandOK w) :
    (-20 ≤ (get_data w i).surfaceTemperature ∧
      (get_data w i).surfaceTemperature ≤ 0) ∧
    (-25 ≤ (get_data w i).externalTemperature ∧
      (get_data w i).externalTemperature ≤ 0) ∧
    (10 ≤ (get_data w i).iceThickness ∧ (get_data w i).iceThickness ≤ 50) ∧
    (0 ≤ (get_data w i).snowAccumulation ∧
      (get_data w i).snowAccumulation ≤ 15) := by
  obtain ⟨ha0, ha1⟩ := hw (4 * i)
  obtain ⟨hb0, hb1⟩ := hw (4 * i + 1)
  obtain ⟨hc0, hc1⟩ := hw (4 * i + 2)
  obtain ⟨hd0, hd1⟩ := hw (4 * i + 3)
  have h1 := pyRound1_uniform_bounds (-20) 0 _ ha0 ha1.le (by norm_num)
  have h2 := pyRound1_uniform_bounds (-25) 0 _ hb0 hb1.le (by norm_num)
  have h3 := pyRound1_uniform_bounds 10 50 _ hc0 hc1.le (by norm_num)
  have h4 := pyRound1_uniform_bounds 0 15 _ hd0 hd1.le (by norm_num)
  push_cast at h1 h2 h3 h4
  simp only [get_data]
  exact ⟨h1, h2, h3, h4⟩

/-- C2 witness: the bounds hold at the concrete sample world. -/
theorem c2_fields_within_bounds_witness :
    (-20 ≤ (get_data sampleWorld 0).surfaceTemperature ∧
      (get_data sampleWorld 0).surfaceTemperature ≤ 0) ∧
    (-25 ≤ (get_data sampleWorld 0).externalTemperature ∧
      (get_data sampleWorld 0).externalTemperature ≤ 0) ∧
    (10 ≤ (get_data sampleWorld 0).iceThickness ∧
      (get_data sampleWorld 0).iceThickness ≤ 50) ∧
    (0 ≤ (get_data sampleWorld 0).snowAccumulation ∧
      (get_data sampleWorld 0).snowAccumulation ≤ 15) :=
  c2_fields_within_bounds sampleWorld 0 (fun _ => by constructor <;> norm_num [sampleWorld])

/-- C9: every numeric field of a generated reading is an exact multiple
of one tenth, and conversely every tenth inside the documented bound is
attained by the rounded uniform draw of the corresponding field for
some admissible value of the random source. -/
theorem c9_fields_are_tenths :
    (∀ (w : World) (i : ℕ),
      (∃ k : ℤ, (get_data w i).surfaceTemperature = (k : ℚ) / 10) ∧
      (∃ k : ℤ, (get_data w i).externalTemperature = (k : ℚ) / 10) ∧
      (∃ k : ℤ, (get_data w i).iceThickness = (k : ℚ) / 10) ∧
      (∃ k : ℤ, (get_data w i).snowAccumulation = (k : ℚ) / 10)) ∧
    (∀ a b : ℤ, a < b → ∀ k : ℤ, (a : ℚ) ≤ (k : ℚ) / 10 → (k : ℚ) / 10 ≤ (b : ℚ) →
      ∃ u : ℚ, 0 ≤ u ∧ u < 1 ∧
        pyRound1 (uniform (a : ℚ) (b : ℚ) u) = (k : ℚ) / 10) := by
  constructor
  · intro w i
    refine ⟨⟨roundHalfEven (10 * uniform (-20) 0 (w.rand (4 * i))), ?_⟩,
      ⟨roundHalfEven (10 * uniform (-25) 0 (w.rand (4 * i + 1))), ?_⟩,
      ⟨roundHalfEven (10 * uniform 10 50 (w.rand (4 * i + 2))), ?_⟩,
      ⟨roundHalfEven (10 * uniform 0 15 (w.rand (4 * i + 3))), ?_⟩⟩ <;>
      simp only [get_data, pyRound1]
  · exact pyRound1_uniform_attains

/-- C9 witness: concrete instances of both directions. -/
theorem c9_fields_are_tenths_witness :
    ((∃ k : ℤ, (get_data sampleWorld 0).surfaceTemperature = (k : ℚ) / 10) ∧
     (∃ k : ℤ, (get_data sampleWorld 0).externalTemperature = (k : ℚ) / 10) ∧
     (∃ k : ℤ, (get_data sampleWorld 0).iceThickness = (k : ℚ) / 10) ∧
     (∃ k : ℤ, (get_data sampleWorld 0).snowAccumulation = (k : ℚ) / 10)) ∧
    (∃ u : ℚ, 0 ≤ u ∧ u < 1 ∧
      pyRound1 (uniform ((15 : ℤ) : ℚ) ((50 : ℤ) : ℚ) u) = ((500 : ℤ) : ℚ) / 10) :=
  ⟨c9_fields_are_tenths.1 sampleWorld 0,
    c9_fields_are_tenths.2 15 50 (by norm_num) 500 (by norm_num) (by norm_num)⟩

/-! ## Timestamp formatting lemmas -/

theorem digitVal_digitChar (n : ℕ) : digitVal (digitChar n) = some (n % 10) := by
  have h : n % 10 < 10 := Nat.mod_lt _ (by norm_num)
  unfold digitChar
  set m := n % 10 with hm
  interval_cases m <;> decide

/-- The formatted timestamp of any valid datetime parses back to it. -/
theorem parseISO_strftimeISO (t : DateTime) (h : PyValidDT t) :
    parseISO (strftimeISO t) = some t := by
  obtain ⟨h1, h2, h3, h4, h5, h6, h7, h8, h9⟩ := h
  obtain ⟨y, mo, d, hh, mi, s⟩ := t
  simp only at h1 h2 h3 h4 h5 h6 h7 h8 h9
  show parseISOChars (isoChars ⟨y, mo, d, hh, mi, s⟩) = some ⟨y, mo, d, hh, mi, s⟩
  simp [parseISOChars, isoChars, digitVal_digitChar, DateTime.mk.injEq]
  omega

/-- The formatted timestamp is always twenty characters ending in `Z`. -/
theorem strftimeISO_shape (t : DateTime) :
    (strftimeISO t).length = 20 ∧ (strftimeISO t).toList.getLast? = some 'Z' :=
  ⟨rfl, rfl⟩

/-- C6: every generated timestamp is the twenty-character
`YYYY-MM-DDTHH:MM:SSZ` rendering of the UTC clock at the call (`Z`
suffix included), parses back to exactly that clock value, and along
any two generator calls of a run whose wall clock does not decrease the
parsed timestamps do not decrease either.  The year hypotheses record
that `%Y` pads to four digits only for the four-digit years any real
run's clock produces. -/
theorem c6_timestamp_valid_and_monotone (w : World) (i j : ℕ)
    (hi : PyValidDT (w.clock i)) (_hi4 : 1000 ≤ (w.clock i).year)
    (hj : PyValidDT (w.clock j)) (_hj4 : 1000 ≤ (w.clock j).year) :
    ((get_data w i).timestamp.length = 20 ∧
      (get_data w i).timestamp.toList.getLast? = some 'Z' ∧
      parseISO ((get_data w i).timestamp) = some (w.clock i)) ∧
    (dtKey (w.clock i) ≤ dtKey (w.clock j) →
      ∃ ti tj : DateTime, parseISO ((get_data w i).timestamp) = some ti ∧
        parseISO ((get_data w j).timestamp) = some tj ∧ dtKey ti ≤ dtKey tj) := by
  have e1 : (get_data w i).timestamp = strftimeISO (w.clock i) := rfl
  have e2 : (get_data w j).timestamp = strftimeISO (w.clock j) := rfl
  refine ⟨⟨?_, ?_, ?_⟩, fun hm => ?_⟩
  · rw [e1]; exact (strftimeISO_shape _).1
  · rw [e1]; exact (strftimeISO_shape _).2
  · rw [e1]; exact parseISO_strftimeISO _ hi
  · exact ⟨w.clock i, w.clock j, by rw [e1]; exact parseISO_strftimeISO _ hi,
      by rw [e2]; exact parseISO_strftimeISO _ hj, hm⟩

/-- C6 witness: the timestamp facts at the concrete sample world. -/
theorem c6_timestamp_valid_and_monotone_witness :
    (((get_data sampleWorld 0).timestamp.length = 20 ∧
      (get_data sampleWorld 0).timestamp.toList.getLast? = some 'Z' ∧
      parseISO ((get_data sampleWorld 0).timestamp) = some (sampleWorld.clock 0)) ∧
    (dtKey (sampleWorld.clock 0) ≤ dtKey (sampleWorld.clock 1) →
      ∃ ti tj : DateTime,
        parseISO ((get_data sampleWorld 0).timestamp) = some ti ∧
        parseISO ((get_data sampleWorld 1).timestamp) = some tj ∧
        dtKey ti ≤ dtKey tj)) :=
  c6_timestamp_valid_and_monotone sampleWorld 0 1 (by decide) (by decide)
    (by decide) (by decide)

/-! ## Trace structure lemmas -/

theorem countP_testPass (p : Event → Bool)
    (hpr : ∀ r, p (.printReading r) = false) (w : World) :
    ∀ (locs : List String) (i : ℕ), (testPass w locs i).countP p = 0 := by
  intro locs
  induction locs with
  | nil => intro i; rfl
  | cons loc rest ih =>
    intro i
    simp [testPass, List.countP_cons, hpr, ih (i + 1)]

theorem countP_testLoop (p : Event → Bool)
    (hpr : ∀ r, p (.printReading r) = false)
    (hsl : ∀ n, p (.sleepSecs n) = false) (w : World) (locs : List String) :
    ∀ (c i : ℕ), (testLoop w locs c i).countP p = 0 := by
  intro c
  induction c with
  | zero => intro i; rfl
  | succ c ih =>
    intro i
    simp [testLoop, List.countP_append, List.countP_cons, hsl,
      countP_testPass p hpr w locs i, ih (i + locs.length)]

theorem send_data_ok (w : World) (fails : ℕ → String → Bool) (i : ℕ)
    (loc : String) (h : fails i loc = false) :
    send_data w fails i loc =
      ([.publish loc (attachLocation (get_data w i) loc),
        .printSent loc (attachLocation (get_data w i) loc)], false) := by
  simp [send_data, h]

theorem send_data_fail (w : World) (fails : ℕ → String → Bool) (i : ℕ)
    (loc : String) (h : fails i loc = true) :
    send_data w fails i loc =
      ([.publish loc (attachLocation (get_data w i) loc)], true) := by
  simp [send_data, h]

theorem livePass_cons_ok (w : World) (fails : ℕ → String → Bool) (loc : String)
    (cl : IoTClient) (rest : List (String × IoTClient)) (i : ℕ)
    (h : fails i loc = false) :
    livePass w fails ((loc, cl) :: rest) i =
      ([.publish loc (attachLocation (get_data w i) loc),
        .printSent loc (attachLocation (get_data w i) loc)] ++
          (livePass w fails rest (i + 1)).1,
        (livePass w fails rest (i + 1)).2) := by
  simp [livePass, send_data_ok w fails i loc h]

theorem livePass_cons_fail (w : World) (fails : ℕ → String → Bool) (loc : String)
    (cl : IoTClient) (rest : List (String × IoTClient)) (i : ℕ)
    (h : fails i loc = true) :
    livePass w fails ((loc, cl) :: rest) i =
      ([.publish loc (attachLocation (get_data w i) loc)], true) := by
  simp [livePass, send_data_fail w fails i loc h]

theorem liveLoop_succ_ok (w : World) (fails : ℕ → String → Bool)
    (clients : List (String × IoTClient)) (c i : ℕ)
    (h : (livePass w fails clients i).2 = false) :
    liveLoop w fails clients (c + 1) i =
      ((livePass w fails clients i).1 ++ Event.sleepSecs 10 ::
          (liveLoop w fails clients c (i + clients.length)).1,
        (liveLoop w fails clients c (i + clients.length)).2) := by
  simp [liveLoop, h]

theorem liveLoop_succ_fail (w : World) (fails : ℕ → String → Bool)
    (clients : List (String × IoTClient)) (c i : ℕ)
    (h : (livePass w fails clients i).2 = true) :
    liveLoop w fails clients (c + 1) i = ((livePass w fails clients i).1, true) := by
  simp [liveLoop, h]

theorem countP_livePass (p : Event → Bool)
    (hpub : ∀ l r, p (.publish l r) = false)
    (hsent : ∀ l r, p (.printSent l r) = false)
    (w : World) (fails : ℕ → String → Bool) :
    ∀ (clients : List (String × IoTClient)) (i : ℕ),
      ((livePass w fails clients i).1).countP p = 0 := by
  intro clients
  induction clients with
  | nil => intro i; rfl
  | cons c rest ih =>
    intro i
    obtain ⟨loc, cl⟩ := c
    rcases hf : fails i loc with _ | _
    · rw [livePass_cons_ok w fails loc cl rest i hf]
      simp [List.countP_append, List.countP_cons, hpub, hsent, ih (i + 1)]
    · rw [livePass_cons_fail w fails loc cl rest i hf]
      simp [List.countP_cons, hpub]

theorem countP_liveLoop (p : Event → Bool)
    (hpub : ∀ l r, p (.publish l r) = false)
    (hsent : ∀ l r, p (.printSent l r) = false)
    (hsl : ∀ n, p (.sleepSecs n) = false)
    (w : World) (fails : ℕ → String → Bool)
    (clients : List (String × IoTClient)) :
    ∀ (c i : ℕ), ((liveLoop w fails clients c i).1).countP p = 0 := by
  intro c
  induction c with
  | zero => intro i; rfl
  | succ c ih =>
    intro i
    rcases hf : (livePass w fails clients i).2 with _ | _
    · rw [liveLoop_succ_ok w fails clients c i hf]
      simp [List.countP_append, List.countP_cons, hsl,
        countP_livePass p hpub hsent w fails clients i, ih (i + clients.length)]
    · rw [liveLoop_succ_fail w fails clients c i hf]
      exact countP_livePass p hpub hsent w fails clients i

theorem printedLocs_testPass (w : World) :
    ∀ (locs : List String) (i : ℕ), printedLocs (testPass w locs i) = locs := by
  intro locs
  induction locs with
  | nil => intro i; rfl
  | cons loc rest ih =>
    intro i
    simp [testPass, printedLocs, List.filterMap_cons, attachLocation, ih (i + 1)]
    exact ih (i + 1)

theorem printedLocs_testLoop (w : World) (locs : List String) :
    ∀ (c i : ℕ),
      printedLocs (testLoop w locs c i) = (List.replicate c locs).flatten := by
  intro c
  induction c with
  | zero => intro i; rfl
  | succ c ih =>
    intro i
    simp only [testLoop, printedLocs, List.filterMap_append, List.filterMap_cons,
      List.replicate_succ, List.flatten_cons]
    have h1 := printedLocs_testPass w locs i
    have h2 := ih (i + locs.length)
    simp only [printedLocs] at h1 h2
    rw [h1, h2]

theorem createClients_keys :
    ∀ (regs : List (String × Option String)) (clients : List (String × IoTClient)),
      createClients regs = .ok clients → clients.map Prod.fst = regs.map Prod.fst := by
  intro regs
  induction regs with
  | nil =>
    intro clients h
    injection h with h
    rw [← h]
    rfl
  | cons p rest ih =>
    intro clients h
    obtain ⟨loc, cred⟩ := p
    simp only [createClients] at h
    rcases hc : create_from_connection_string cred with msg | c <;> rw [hc] at h
    · injection h
    · rcases hr : createClients rest with msg | cs <;> rw [hr] at h
      · injection h
      · injection h with h
        rw [← h]
        simp [ih cs hr]

theorem createClients_error_of_bad :
    ∀ (regs : List (String × Option String)),
      (∃ p ∈ regs, p.2 = none ∨ p.2 = some "") →
      ∃ msg, createClients regs = .error msg := by
  intro regs
  induction regs with
  | nil => rintro ⟨p, hp, _⟩; cases hp
  | cons q rest ih =>
    rintro ⟨p, hp, hbad⟩
    obtain ⟨loc, cred⟩ := q
    rcases List.mem_cons.mp hp with heq | hmem
    · subst heq
      rcases hbad with h | h <;> simp only at h <;> subst h
      · exact ⟨"connection string must not be None", rfl⟩
      · exact ⟨"connection string is empty", rfl⟩
    · rcases hc : create_from_connection_string cred with msg | c
      · exact ⟨msg, by simp only [createClients]; rw [hc]⟩
      · obtain ⟨msg, hmsg⟩ := ih ⟨p, hmem, hbad⟩
        exact ⟨msg, by simp only [createClients]; rw [hc, hmsg]⟩

/-! ## Claim theorems for the dispatch loop -/

/-- C3: dry-run mode never calls `send_message` over any execution, and
each cycle of the test loop prints exactly one reading per registry
site, in registry order; over a whole run of `cycles` cycles the
printed locations are `cycles` repetitions of the key list. -/
theorem c3_dry_run_no_publish (w : World) (e : EnvVars) (cycles i : ℕ) :
    publishCount (mainTestTrace w e cycles) = 0 ∧
    printedLocs (testPass w (registryKeys e) i) = registryKeys e ∧
    printedLocs (mainTestTrace w e cycles) =
      (List.replicate cycles (registryKeys e)).flatten := by
  refine ⟨?_, printedLocs_testPass w _ i, ?_⟩
  · unfold mainTestTrace publishCount
    rw [List.countP_cons, List.countP_append]
    rw [countP_testLoop _ (fun _ => rfl) (fun _ => rfl)]
    rfl
  · unfold mainTestTrace
    simp only [printedLocs, List.filterMap_cons, List.filterMap_append]
    have h := printedLocs_testLoop w (registryKeys e) cycles 0
    simp only [printedLocs] at h
    simp [h]

/-- C8: test mode reads no credential: its trace is unchanged when
every `CONNECTION_STRING` variable is absent, it constructs no IoT
client, and it still prints one reading per site per cycle with all
credentials missing. -/
theorem c8_test_mode_needs_no_credentials (w : World) (e : EnvVars) (cycles : ℕ) :
    mainTestTrace w e cycles = mainTestTrace w sampleEnvMissing cycles ∧
    clientCreatedCount (mainTestTrace w e cycles) = 0 ∧
    printedLocs (mainTestTrace w sampleEnvMissing cycles) =
      (List.replicate cycles (registryKeys sampleEnvMissing)).flatten := by
  refine ⟨rfl, ?_, ?_⟩
  · unfold mainTestTrace clientCreatedCount
    rw [List.countP_cons, List.countP_append]
    rw [countP_testLoop _ (fun _ => rfl) (fun _ => rfl)]
    rfl
  · unfold mainTestTrace
    simp only [printedLocs, List.filterMap_cons, List.filterMap_append]
    have h := printedLocs_testLoop w (registryKeys sampleEnvMissing) cycles 0
    simp only [printedLocs] at h
    simp [h]

theorem eventLocsIn_append (keys : List String) (a b : List Event) :
    eventLocsIn keys (a ++ b) = (eventLocsIn keys a && eventLocsIn keys b) := by
  simp [eventLocsIn, List.all_append]

theorem eventLocsIn_cons (keys : List String) (ev : Event) (evs : List Event) :
    eventLocsIn keys (ev :: evs) =
      ((match eventLoc ev with
        | some l => keys.contains l
        | none => true) && eventLocsIn keys evs) := by
  simp [eventLocsIn]

theorem eventLocsIn_testPass (keys : List String) (w : World) :
    ∀ (locs : List String), (∀ l ∈ locs, keys.contains l = true) →
      ∀ i, eventLocsIn keys (testPass w locs i) = true := by
  intro locs
  induction locs with
  | nil => intro _ i; rfl
  | cons loc rest ih =>
    intro h i
    rw [testPass, eventLocsIn_cons]
    simp only [eventLoc, attachLocation]
    rw [h loc (List.mem_cons_self _ _), ih (fun l hl => h l (List.mem_cons_of_mem _ hl)) (i + 1)]
    rfl

theorem eventLocsIn_testLoop (keys : List String) (w : World) (locs : List String)
    (h : ∀ l ∈ locs, keys.contains l = true) :
    ∀ c i, eventLocsIn keys (testLoop w locs c i) = true := by
  intro c
  induction c with
  | zero => intro i; rfl
  | succ c ih =>
    intro i
    rw [testLoop, eventLocsIn_append, eventLocsIn_cons,
      eventLocsIn_testPass keys w locs h i, ih (i + locs.length)]
    rfl

theorem eventLocsIn_livePass (keys : List String) (w : World)
    (fails : ℕ → String → Bool) :
    ∀ (clients : List (String × IoTClient)),
      (∀ p ∈ clients, keys.contains p.1 = true) →
      ∀ i, eventLocsIn keys (livePass w fails clients i).1 = true := by
  intro clients
  induction clients with
  | nil => intro _ i; rfl
  | cons c rest ih =>
    intro h i
    obtain ⟨loc, cl⟩ := c
    have hloc : keys.contains loc = true := h (loc, cl) (List.mem_cons_self _ _)
    rcases hf : fails i loc with _ | _
    · rw [livePass_cons_ok w fails loc cl rest i hf, eventLocsIn_append]
      rw [ih (fun p hp => h p (List.mem_cons_of_mem _ hp)) (i + 1)]
      rw [eventLocsIn_cons, eventLocsIn_cons]
      simp only [eventLoc, hloc]
      rfl
    · rw [livePass_cons_fail w fails loc cl rest i hf, eventLocsIn_cons]
      simp only [eventLoc, hloc]
      rfl

theorem eventLocsIn_liveLoop (keys : List String) (w : World)
    (fails : ℕ → String → Bool) (clients : List (String × IoTClient))
    (h : ∀ p ∈ clients, keys.contains p.1 = true) :
    ∀ c i, eventLocsIn keys (liveLoop w fails clients c i).1 = true := by
  intro c
  induction c with
  | zero => intro i; rfl
  | succ c ih =>
    intro i
    rcases hf : (livePass w fails clients i).2 with _ | _
    · rw [liveLoop_succ_ok w fails clients c i hf, eventLocsIn_append,
        eventLocsIn_cons, eventLocsIn_livePass keys w fails clients h i,
        ih (i + clients.length)]
      rfl
    · rw [liveLoop_succ_fail w fails clients c i hf]
      exact eventLocsIn_livePass keys w fails clients h i

theorem eventLocsIn_map_clientCreated (keys : List String) :
    ∀ (clients : List (String × IoTClient)),
      (∀ p ∈ clients, keys.contains p.1 = true) →
      eventLocsIn keys (clients.map (fun p => Event.clientCreated p.1)) = true := by
  intro clients
  induction clients with
  | nil => intro _; rfl
  | cons c rest ih =>
    intro h
    rw [List.map_cons, eventLocsIn_cons]
    simp only [eventLoc]
    rw [h c (List.mem_cons_self _ _), ih (fun p hp => h p (List.mem_cons_of_mem _ hp))]
    rfl

theorem eventLocsIn_map_disconnect (keys : List String) :
    ∀ (clients : List (String × IoTClient)),
      (∀ p ∈ clients, keys.contains p.1 = true) →
      eventLocsIn keys (clients.map (fun p => Event.disconnect p.1)) = true := by
  intro clients
  induction clients with
  | nil => intro _; rfl
  | cons c rest ih =>
    intro h
    rw [List.map_cons, eventLocsIn_cons]
    simp only [eventLoc]
    rw [h c (List.mem_cons_self _ _), ih (fun p hp => h p (List.mem_cons_of_mem _ hp))]
    rfl

/-- Clients constructed by `createClients` carry exactly the registry
keys. -/
theorem createClients_mem_keys (e : EnvVars) (clients : List (String × IoTClient))
    (hc : createClients (location_connection_strings e) = .ok clients) :
    ∀ p ∈ clients, (registryKeys e).contains p.1 = true := by
  intro p hp
  have hk := createClients_keys _ _ hc
  have : p.1 ∈ clients.map Prod.fst := List.mem_map_of_mem _ hp
  rw [hk] at this
  exact List.elem_eq_true_of_mem this

/-- C10: the registry maps exactly the three fixed site names, in
insertion order, whatever the environment holds; and every site name
mentioned by any event of a test-mode or live-mode run (readings
printed, payloads published, clients created, connections closed) is
one of those registry keys. -/
theorem c10_registry_three_fixed_sites (w : World) (e : EnvVars)
    (fails : ℕ → String → Bool) (n cycles : ℕ) :
    registryKeys e = ["Dow\x27s Lake", "NAC", "Fifth Avenue"] ∧
    eventLocsIn (registryKeys e) (mainTestTrace w e n) = true ∧
    eventLocsIn (registryKeys e) (mainLive w fails e cycles).1 = true := by
  have hkeys : ∀ l ∈ registryKeys e, (registryKeys e).contains l = true :=
    fun l hl => List.elem_eq_true_of_mem hl
  refine ⟨rfl, ?_, ?_⟩
  · unfold mainTestTrace
    rw [eventLocsIn_cons, eventLocsIn_append,
      eventLocsIn_testLoop _ w _ hkeys n 0, eventLocsIn_cons]
    rfl
  · rcases hc : createClients (location_connection_strings e) with msg | clients
    · unfold mainLive
      rw [hc]
      rfl
    · have hmem := createClients_mem_keys e clients hc
      have h1 := eventLocsIn_map_clientCreated (registryKeys e) clients hmem
      have h2 := eventLocsIn_liveLoop (registryKeys e) w fails clients hmem cycles 0
      have h3 := eventLocsIn_map_disconnect (registryKeys e) clients hmem
      unfold mainLive
      rw [hc]
      dsimp only
      rcases hf : (liveLoop w fails clients cycles 0).2 with _ | _
      · rw [if_neg Bool.false_ne_true]
        dsimp only
        simp only [eventLocsIn_append, eventLocsIn_cons, h1, h2, h3]
        rfl
      · rw [if_pos rfl]
        dsimp only
        simp only [eventLocsIn_append, eventLocsIn_cons, h1, h2, h3]
        rfl

/-- A benign oracle makes every pass succeed and publish one payload
per client, tagged with that client's site key. -/
theorem livePass_noFail (w : World) (fails : ℕ → String → Bool)
    (h : ∀ j l, fails j l = false) :
    ∀ (clients : List (String × IoTClient)) (i : ℕ),
      (livePass w fails clients i).2 = false ∧
      publishedPairs (livePass w fails clients i).1 =
        clients.map (fun p => (p.1, p.1)) := by
  intro clients
  induction clients with
  | nil => intro i; exact ⟨rfl, rfl⟩
  | cons c rest ih =>
    intro i
    obtain ⟨loc, cl⟩ := c
    rw [livePass_cons_ok w fails loc cl rest i (h i loc)]
    refine ⟨(ih (i + 1)).1, ?_⟩
    have hp := (ih (i + 1)).2
    simp only [publishedPairs] at hp ⊢
    simp [List.filterMap_append, List.filterMap_cons, attachLocation, hp]

theorem liveLoop_noFail_snd (w : World) (fails : ℕ → String → Bool)
    (h : ∀ j l, fails j l = false) (clients : List (String × IoTClient)) :
    ∀ c i, (liveLoop w fails clients c i).2 = false := by
  intro c
  induction c with
  | zero => intro i; rfl
  | succ c ih =>
    intro i
    rw [liveLoop_succ_ok w fails clients c i (livePass_noFail w fails h clients i).1]
    exact ih (i + clients.length)

/-- C4: in live mode, one cycle of the loop (the pass over
`clients.items()`, shown at an arbitrary reading index, hence for every
cycle) calls `send_message` exactly once per registry site, in registry
iteration order, and the payload of each call carries the `location`
field equal to that site's registry key. -/
theorem c4_live_publish_once_per_site (w : World) (e : EnvVars)
    (fails : ℕ → String → Bool) (clients : List (String × IoTClient)) (i : ℕ)
    (hc : createClients (location_connection_strings e) = .ok clients)
    (h : ∀ j l, fails j l = false) :
    publishedPairs (livePass w fails clients i).1 =
      (registryKeys e).map (fun l => (l, l)) := by
  have hk : clients.map Prod.fst = registryKeys e := createClients_keys _ _ hc
  rw [(livePass_noFail w fails h clients i).2, ← hk, List.map_map]
  rfl

/-- C4 witness: one concrete cycle publishes exactly the three sites in
order with matching location fields. -/
theorem c4_live_publish_once_per_site_witness :
    publishedPairs (livePass sampleWorld noFail
      [("Dow\x27s Lake", ⟨"HostName=a"⟩), ("NAC", ⟨"HostName=b"⟩),
       ("Fifth Avenue", ⟨"HostName=c"⟩)] 0).1 =
      (registryKeys sampleEnv).map (fun l => (l, l)) :=
  c4_live_publish_once_per_site sampleWorld sampleEnv noFail _ 0 rfl
    (fun _ _ => rfl)

theorem countP_map_zero {α : Type} (p : Event → Bool) (f : α → Event)
    (hp : ∀ a, p (f a) = false) :
    ∀ l : List α, (l.map f).countP p = 0 := by
  intro l
  induction l with
  | nil => rfl
  | cons a rest ih =>
    rw [List.map_cons, List.countP_cons, hp, ih]
    rfl

theorem disconnectCountAt_map_list (loc : String) :
    ∀ clients : List (String × IoTClient),
      disconnectCountAt loc (clients.map (fun p => Event.disconnect p.1)) =
        (clients.map Prod.fst).countP (fun l => decide (l = loc)) := by
  intro clients
  induction clients with
  | nil => rfl
  | cons c rest ih =>
    rw [List.map_cons, List.map_cons]
    unfold disconnectCountAt at ih ⊢
    rw [List.countP_cons, List.countP_cons, ih]

theorem registryKeys_countP_one (e : EnvVars) (loc : String)
    (hloc : loc ∈ registryKeys e) :
    (registryKeys e).countP (fun l => decide (l = loc)) = 1 := by
  have hk : registryKeys e = ["Dow\x27s Lake", "NAC", "Fifth Avenue"] := rfl
  rw [hk] at hloc ⊢
  simp only [List.mem_cons, List.not_mem_nil, or_false] at hloc
  rcases hloc with rfl | rfl | rfl <;> decide

/-- The clean-interrupt shape of a live run: banner, loop events, the
`Stopped` notice, one disconnect per client, exit status zero. -/
theorem mainLive_noFail (w : World) (e : EnvVars) (fails : ℕ → String → Bool)
    (clients : List (String × IoTClient)) (cycles : ℕ)
    (hc : createClients (location_connection_strings e) = .ok clients)
    (h : ∀ j l, fails j l = false) :
    mainLive w fails e cycles =
      (clients.map (fun p => Event.clientCreated p.1) ++
        [Event.printLine "Sending data to IoT Hub..."] ++
        (liveLoop w fails clients cycles 0).1 ++
        Event.printLine "Stopped sending messages." ::
          clients.map (fun p => Event.disconnect p.1), 0) := by
  unfold mainLive
  rw [hc]
  dsimp only
  rw [liveLoop_noFail_snd w fails h clients cycles 0, if_neg Bool.false_ne_true,
    List.append_assoc, List.append_assoc]

/-- C5: when the interrupt arrives in live mode (after any number of
completed cycles) with no send ever raising, the run prints the
`Stopped sending messages.` notice exactly once, calls `disconnect`
exactly once for every registry site, exits with status 0, and after
the notice emits nothing but the disconnects — in particular no further
`send_message` call is issued. -/
theorem c5_interrupt_clean_shutdown (w : World) (e : EnvVars)
    (fails : ℕ → String → Bool) (clients : List (String × IoTClient)) (cycles : ℕ)
    (hc : createClients (location_connection_strings e) = .ok clients)
    (h : ∀ j l, fails j l = false) :
    (mainLive w fails e cycles).2 = 0 ∧
    lineCount "Stopped sending messages." (mainLive w fails e cycles).1 = 1 ∧
    (∀ loc ∈ registryKeys e,
      disconnectCountAt loc (mainLive w fails e cycles).1 = 1) ∧
    (∃ pfx, (mainLive w fails e cycles).1 =
      pfx ++ Event.printLine "Stopped sending messages." ::
        clients.map (fun p => Event.disconnect p.1) ∧
      publishCount (Event.printLine "Stopped sending messages." ::
        clients.map (fun p => Event.disconnect p.1)) = 0) := by
  have hm := mainLive_noFail w e fails clients cycles hc h
  have hk : clients.map Prod.fst = registryKeys e := createClients_keys _ _ hc
  rw [hm]
  refine ⟨rfl, ?_, ?_, ?_⟩
  · unfold lineCount
    simp only [List.countP_append, List.countP_cons, List.countP_nil]
    rw [countP_map_zero _ (fun p => Event.clientCreated p.1) (fun _ => rfl) clients]
    rw [countP_map_zero _ (fun p => Event.disconnect p.1) (fun _ => rfl) clients]
    rw [countP_liveLoop _ (fun _ _ => rfl) (fun _ _ => rfl) (fun _ => rfl)
      w fails clients cycles 0]
    rfl
  · intro loc hloc
    unfold disconnectCountAt
    simp only [List.countP_append, List.countP_cons, List.countP_nil]
    rw [countP_map_zero _ (fun p => Event.clientCreated p.1) (fun _ => rfl) clients]
    rw [countP_liveLoop _ (fun _ _ => rfl) (fun _ _ => rfl) (fun _ => rfl)
      w fails clients cycles 0]
    have hd := disconnectCountAt_map_list loc clients
    unfold disconnectCountAt at hd
    rw [hd, hk, registryKeys_countP_one e loc hloc]
    rfl
  · refine ⟨clients.map (fun p => Event.clientCreated p.1) ++
      [Event.printLine "Sending data to IoT Hub..."] ++
      (liveLoop w fails clients cycles 0).1, by simp, ?_⟩
    unfold publishCount
    rw [List.countP_cons, countP_map_zero _ (fun p => Event.disconnect p.1)
      (fun _ => rfl) clients]
    rfl

/-- C5 witness: a concrete interrupted live run shuts down cleanly. -/
theorem c5_interrupt_clean_shutdown_witness :
    (mainLive sampleWorld noFail sampleEnv 1).2 = 0 ∧
    lineCount "Stopped sending messages."
      (mainLive sampleWorld noFail sampleEnv 1).1 = 1 ∧
    (∀ loc ∈ registryKeys sampleEnv,
      disconnectCountAt loc (mainLive sampleWorld noFail sampleEnv 1).1 = 1) ∧
    (∃ pfx, (mainLive sampleWorld noFail sampleEnv 1).1 =
      pfx ++ Event.printLine "Stopped sending messages." ::
        ([("Dow\x27s Lake", ⟨"HostName=a"⟩), ("NAC", ⟨"HostName=b"⟩),
          ("Fifth Avenue", ⟨"HostName=c"⟩)] :
            List (String × IoTClient)).map (fun p => Event.disconnect p.1) ∧
      publishCount (Event.printLine "Stopped sending messages." ::
        ([("Dow\x27s Lake", ⟨"HostName=a"⟩), ("NAC", ⟨"HostName=b"⟩),
          ("Fifth Avenue", ⟨"HostName=c"⟩)] :
            List (String × IoTClient)).map (fun p => Event.disconnect p.1)) = 0) :=
  c5_interrupt_clean_shutdown sampleWorld sampleEnv noFail _ 1 rfl (fun _ _ => rfl)

end Simulation
